import Mathlib

/-!
Shallow embedding of `src/agent.py` (anko-meta-minds): the Jira and
Confluence tool-adapter functions of the repository, and the theorems that
settle the frozen claims about them.

Modelling conventions, used throughout:

* A remote call (`jira_conn.…`, `confluence_conn.…`) either returns data or
  raises; we model each call as a field of a connection structure with type
  `… → Except String α`: `Except.ok` is a normal return, `Except.error e`
  is a raised exception whose `str(e)` is `e`.  A Python `try/except`
  block is a `match` on that `Except`; the adapter itself is a total Lean
  function, which is exactly the "no exception crosses the adapter
  boundary" shape of the source.
* Python strings are Lean `String`s; f-strings are written out as `++`
  concatenation; `str.lower()`/`str.upper()` are `String.toLower`/
  `String.toUpper`; `"\n".join(xs)` is `String.intercalate "\n" xs`.
* Python `int` is Lean `Int`; `str(i)` is `toString i` (both render a
  nonnegative value without a sign and a negative one with a leading
  minus).
* Python truthiness, where the source relies on it (`if not sprint_id`,
  `if not issues`, `if not results`), is modelled explicitly: a list is
  falsy iff empty, `None` is falsy, an `int` is falsy iff zero, a string
  is falsy iff empty.
* The one numeric computation, the sprint-health completion rate, is a
  CPython float in the source; we model it over `ℚ` with round-half-even
  one-decimal formatting (CPython's `:.1f`).  Both the code's rendering
  and the claim's `round(done/total*100, 1)` are the same Python-float
  computation, so modelling both sides over `ℚ` compares them faithfully.
-/

/-- Python `str.lower()` on the ASCII names the adapters compare: lower-case
each character. -/
def pyLower (s : String) : String := String.mk (s.data.map Char.toLower)

/-- Python `str.upper()`. -/
def pyUpper (s : String) : String := String.mk (s.data.map Char.toUpper)

/-- A Jira issue as the adapters read it: `i.key`, `i.fields.summary`,
`i.fields.status.name` (also what `str(i.fields.status)` renders),
`str(i.fields.assignee)`, `i.fields.description`, and
`i.fields.comment.comments`. -/
structure JComment where
  authorDisplayName : String
  body : String
deriving DecidableEq

structure Issue where
  key : String
  summary : String
  statusName : String
  assignee : String
  description : String
  comments : List JComment
deriving DecidableEq

/-- A transition dict as `jira_conn.transitions` returns it: `t['id']` and
`t['name']`. -/
structure Transition where
  id : String
  name : String
deriving DecidableEq

structure Project where
  key : String
  name : String
deriving DecidableEq

/-- A sprint object: `s.id` (a Python int) and `s.name`. -/
structure Sprint where
  id : Int
  name : String
deriving DecidableEq

/-- The behaviour of the `jira_conn` client: one field per remote call the
adapters make.  `Except.error e` models the call raising an exception with
`str(e) = e`.  `issue.update(fields={…})` calls are modelled per updated
field (`update_priority`, `update_issuetype`, `update_sprint_field`);
`add_attachment` folds the `open(file_path)` and the upload into one
fallible step, as both sit inside the same `try`. -/
structure JiraConn where
  search_issues : String → Except String (List Issue)
  add_comment : String → String → Except String Unit
  transition_issue : String → String → Except String Unit
  transitions : String → Except String (List Transition)
  create_issue : String → String → String → String → Except String Issue
  issue : String → Except String Issue
  assign_issue : String → String → Except String Unit
  add_attachment : String → String → Except String Unit
  add_worklog : String → String → Except String Unit
  projects : Except String (List Project)
  create_issue_link : String → String → String → Except String Unit
  create_sprint : Int → String → Option String → Option String → Except String Sprint
  update_priority : String → String → Except String Unit
  update_issuetype : String → String → Except String Unit
  update_sprint_field : String → Int → Except String Unit
  sprints : Int → Except String (List Sprint)
  add_issues_to_sprint : Int → List String → Except String Unit

/-- `search_jira` (src/agent.py lines 43-50). -/
def search_jira (conn : JiraConn) (jql_query : String) : String :=
  match conn.search_issues jql_query with
  | .ok issues =>
      let results := issues.map (fun i => i.key ++ ": " ++ i.summary ++ " (" ++ i.statusName ++ ")")
      if results.isEmpty then "No tickets found." else String.intercalate "\n" results
  | .error e => "Error: " ++ e

/-- `comment_on_ticket` (lines 52-58). -/
def comment_on_ticket (conn : JiraConn) (issue_key comment : String) : String :=
  match conn.add_comment issue_key comment with
  | .ok _ => "✅ Comment added to " ++ issue_key ++ "."
  | .error e => "❌ Error: " ++ e

/-- `update_ticket_status` (lines 60-66). -/
def update_ticket_status (conn : JiraConn) (issue_key status_name : String) : String :=
  match conn.transition_issue issue_key status_name with
  | .ok _ => "✅ " ++ issue_key ++ " moved to " ++ status_name ++ "."
  | .error e => "❌ Error: " ++ e

/-- `get_transitions` (lines 68-74): note the join of an empty list is the
empty string, exactly as in Python. -/
def get_transitions (conn : JiraConn) (issue_key : String) : String :=
  match conn.transitions issue_key with
  | .ok ts => String.intercalate "\n" (ts.map (fun t => "ID: " ++ t.id ++ " - Name: " ++ t.name))
  | .error e => "Error: " ++ e

/-- `create_issue` (lines 76-87). -/
def create_issue (conn : JiraConn) (project summary description : String)
    (issuetype : String := "Story") : String :=
  match conn.create_issue project summary description issuetype with
  | .ok new_issue => "✅ Issue created: " ++ new_issue.key
  | .error e => "❌ Error: " ++ e

/-- `get_issue_details` (lines 89-100). -/
def get_issue_details (conn : JiraConn) (issue_key : String) : String :=
  match conn.issue issue_key with
  | .ok i =>
      "Key: " ++ i.key ++ "\nSummary: " ++ i.summary ++ "\nStatus: " ++ i.statusName ++
        "\nAssignee: " ++ i.assignee ++ "\nDescription: " ++ i.description
  | .error e => "Error: " ++ e

/-- `assign_issue` (lines 102-108). -/
def assign_issue (conn : JiraConn) (issue_key account_id : String) : String :=
  match conn.assign_issue issue_key account_id with
  | .ok _ => "✅ " ++ issue_key ++ " assigned to " ++ account_id ++ "."
  | .error e => "❌ Error: " ++ e

/-- `add_attachment` (lines 110-117). -/
def add_attachment (conn : JiraConn) (issue_key file_path : String) : String :=
  match conn.add_attachment issue_key file_path with
  | .ok _ => "✅ File attached to " ++ issue_key ++ "."
  | .error e => "❌ Error: " ++ e

/-- `get_issue_comments` (lines 119-126). -/
def get_issue_comments (conn : JiraConn) (issue_key : String) : String :=
  match conn.issue issue_key with
  | .ok i =>
      let comments := i.comments.map (fun c => c.authorDisplayName ++ ": " ++ c.body)
      if comments.isEmpty then "No comments found." else String.intercalate "\n---\n" comments
  | .error e => "Error: " ++ e

/-- `log_work` (lines 128-134). -/
def log_work (conn : JiraConn) (issue_key time_spent : String) : String :=
  match conn.add_worklog issue_key time_spent with
  | .ok _ => "✅ Logged " ++ time_spent ++ " to " ++ issue_key ++ "."
  | .error e => "❌ Error: " ++ e

/-- `list_projects` (lines 136-142). -/
def list_projects (conn : JiraConn) : String :=
  match conn.projects with
  | .ok ps => String.intercalate "\n" (ps.map (fun p => p.key ++ ": " ++ p.name))
  | .error e => "Error: " ++ e

/-- `get_sprint_issues` (lines 144-150). -/
def get_sprint_issues (conn : JiraConn) (sprint_id : Int) : String :=
  match conn.search_issues ("sprint = " ++ toString sprint_id) with
  | .ok issues => String.intercalate "\n" (issues.map (fun i => i.key ++ ": " ++ i.summary))
  | .error e => "Error: " ++ e

/-- `update_issue_priority` (lines 152-159): fetches the issue, then updates
its priority field; either remote step can raise. -/
def update_issue_priority (conn : JiraConn) (issue_key priority_name : String) : String :=
  match conn.issue issue_key with
  | .error e => "❌ Error: " ++ e
  | .ok _ =>
      match conn.update_priority issue_key priority_name with
      | .ok _ => "✅ Priority updated to " ++ priority_name ++ " for " ++ issue_key ++ "."
      | .error e => "❌ Error: " ++ e

/-- `link_issues` (lines 161-167). -/
def link_issues (conn : JiraConn) (inward_key outward_key : String)
    (link_type : String := "Relates") : String :=
  match conn.create_issue_link link_type inward_key outward_key with
  | .ok _ => "✅ Linked " ++ inward_key ++ " as " ++ link_type ++ " " ++ outward_key ++ "."
  | .error e => "❌ Error: " ++ e

/-- `create_sprint` (lines 169-182). -/
def create_sprint (conn : JiraConn) (board_id : Int) (sprint_name : String)
    (start_date : Option String := none) (end_date : Option String := none) : String :=
  match conn.create_sprint board_id sprint_name start_date end_date with
  | .ok new_sprint =>
      "✅ Sprint '" ++ sprint_name ++ "' created successfully! ID: " ++ toString new_sprint.id
  | .error e => "❌ Error creating sprint: " ++ e

/-- `update_issue_type` (lines 184-195). -/
def update_issue_type (conn : JiraConn) (issue_key new_type : String) : String :=
  match conn.issue issue_key with
  | .error e =>
      "❌ Error: " ++ e ++ ". (Note: Some type changes require a 'Move' operation if status workflows differ.)"
  | .ok _ =>
      match conn.update_issuetype issue_key new_type with
      | .ok _ => "✅ " ++ issue_key ++ " has been successfully changed to a '" ++ new_type ++ "'."
      | .error e =>
          "❌ Error: " ++ e ++ ". (Note: Some type changes require a 'Move' operation if status workflows differ.)"

/-- `add_issue_to_sprint` (lines 197-209). -/
def add_issue_to_sprint (conn : JiraConn) (issue_key : String) (sprint_id : Int) : String :=
  match conn.issue issue_key with
  | .error e =>
      "❌ Error: " ++ e ++ ". Hint: If 'sprint' field isn't recognized, ensure the ticket is in a project that has a Scrum board."
  | .ok _ =>
      match conn.update_sprint_field issue_key sprint_id with
      | .ok _ => "✅ " ++ issue_key ++ " has been added to sprint " ++ toString sprint_id ++ "."
      | .error e =>
          "❌ Error: " ++ e ++ ". Hint: If 'sprint' field isn't recognized, ensure the ticket is in a project that has a Scrum board."

/-- The name test both by-name lookups use (lines 222 and 258):
`s.name.lower() == sprint_name.lower()`. -/
def sprintNameMatches (sprint_name : String) (s : Sprint) : Bool :=
  pyLower s.name == pyLower sprint_name

/-- `add_issue_to_sprint_by_name` (lines 211-229): `next(…, None)` over the
board's sprints is `List.find?`. -/
def add_issue_to_sprint_by_name (conn : JiraConn) (issue_key : String) (board_id : Int)
    (sprint_name : String) : String :=
  match conn.sprints board_id with
  | .error e => "❌ Error: " ++ e
  | .ok ss =>
      match ss.find? (sprintNameMatches sprint_name) with
      | none =>
          "❌ Could not find a sprint named '" ++ sprint_name ++ "' on board " ++ toString board_id ++ "."
      | some target_sprint =>
          match conn.add_issues_to_sprint target_sprint.id [issue_key] with
          | .ok _ =>
              "✅ " ++ issue_key ++ " successfully added to '" ++ sprint_name ++ "' (ID: " ++ toString target_sprint.id ++ ")."
          | .error e => "❌ Error: " ++ e

/-- The JQL string `get_backlog_tickets` builds (line 241). -/
def backlogJql (project_key : String) : String :=
  "project = '" ++ project_key ++ "' AND sprint is EMPTY AND resolution is EMPTY"

/-- `get_backlog_tickets` (lines 231-251). -/
def get_backlog_tickets (conn : JiraConn) (project_key : String) : String :=
  match conn.search_issues (backlogJql project_key) with
  | .error e => "❌ Error retrieving backlog: " ++ e
  | .ok issues =>
      let results := issues.map (fun i => i.key ++ ": " ++ i.summary ++ " [" ++ i.statusName ++ "]")
      if results.isEmpty then "No backlog tickets found for project " ++ project_key ++ "."
      else "Backlog for " ++ project_key ++ ":\n" ++ String.intercalate "\n" results

/-- The value `get_sprint_id_by_name` returns: Python lets the three
`return` statements of the function disagree on type, so the model is a
sum — `intId` for the found sprint's id (an int), `noneV` for Python
`None`, `errStr` for the error string built in the `except` branch. -/
inductive SprintLookup where
  | intId : Int → SprintLookup
  | noneV : SprintLookup
  | errStr : String → SprintLookup
deriving DecidableEq

/-- Python truthiness of a `SprintLookup` value, as `if not sprint_id`
tests it: an int is falsy iff zero, `None` is falsy, a string is falsy iff
empty. -/
def SprintLookup.truthy : SprintLookup → Bool
  | .intId i => i != 0
  | .noneV => false
  | .errStr s => !s.isEmpty

/-- What an f-string interpolation `{sprint_id}` renders for each possible
`SprintLookup` value (`str()` of the underlying Python value). -/
def SprintLookup.render : SprintLookup → String
  | .intId i => toString i
  | .noneV => "None"
  | .errStr s => s

/-- Whether the value is a Python `str`. -/
def SprintLookup.isString : SprintLookup → Bool
  | .errStr _ => true
  | _ => false

/-- The `for s in sprints: if s.name.lower() == sprint_name.lower(): return s.id`
loop of `get_sprint_id_by_name` (lines 257-259): first match wins. -/
def findSprintId (ss : List Sprint) (sprint_name : String) : Option Int :=
  match ss with
  | [] => none
  | s :: rest => if sprintNameMatches sprint_name s then some s.id else findSprintId rest sprint_name

/-- `get_sprint_id_by_name` (lines 253-262). -/
def get_sprint_id_by_name (conn : JiraConn) (board_id : Int) (sprint_name : String) :
    SprintLookup :=
  match conn.sprints board_id with
  | .error e => .errStr ("Error finding sprint: " ++ e)
  | .ok ss =>
      match findSprintId ss sprint_name with
      | some i => .intId i
      | none => .noneV

/-- The fixed keyword set for the done bucket (line 279). -/
def doneStatuses : List String := ["done", "closed", "resolved"]

/-- The fixed keyword set for the in-progress bucket (line 280). -/
def inProgressStatuses : List String := ["in progress", "review"]

/-- Round half to even on an exact rational, the rounding CPython's float
`round` and `format(x, '.1f')` apply at a tie. -/
def roundHalfEven (x : ℚ) : Int :=
  let f := Int.floor x
  let r := x - (f : ℚ)
  if r < 1 / 2 then f
  else if 1 / 2 < r then f + 1
  else if f % 2 = 0 then f else f + 1

/-- Python `round(x, 1)`: the nearest multiple of 1/10, ties to even. -/
def round1 (x : ℚ) : ℚ := (roundHalfEven (x * 10) : ℚ) / 10

/-- Round half to even of the fraction `a / b` (for `b > 0`), computed over
natural numbers: the integer-level counterpart of `roundHalfEven`
(`rheDivNat_eq_roundHalfEven` below proves them equal). -/
def rheDivNat (a b : Nat) : Nat :=
  let q := a / b
  let r := a % b
  if 2 * r < b then q else if b < 2 * r then q + 1 else if q % 2 = 0 then q else q + 1

/-- The three digits CPython's `f"{x:.1f}"` prints for the completion rate
`(done / total) * 100`: `round1` of that rate, times ten.  The source
computes the rate as a float; we render its exact rational value. -/
def pct1Digits (done total : Nat) : Nat := rheDivNat (1000 * done) total

/-- Fixed-point rendering with one decimal place of `n / 10`, for
nonnegative `n`: what `f"{x:.1f}"` prints once `n` is the rounded count of
tenths. -/
def fmt1 (n : Nat) : String := toString (n / 10) ++ "." ++ toString (n % 10)

/-- `check_sprint_health` (lines 264-296).  `if not sprint_id` is the
truthiness test on whatever `get_sprint_id_by_name` returned; the sprint id
is then interpolated into the JQL query through `SprintLookup.render`. -/
def check_sprint_health (conn : JiraConn) (board_id : Int) (sprint_name : String) : String :=
  let sprint_id := get_sprint_id_by_name conn board_id sprint_name
  if !sprint_id.truthy then
    "❌ Sprint '" ++ sprint_name ++ "' not found on board " ++ toString board_id ++ "."
  else
    match conn.search_issues ("sprint = " ++ sprint_id.render) with
    | .error e => "❌ Error calculating health: " ++ e
    | .ok issues =>
        if issues.isEmpty then "Sprint '" ++ sprint_name ++ "' is empty."
        else
          let total := issues.length
          let done := (issues.filter (fun i => doneStatuses.contains (pyLower i.statusName))).length
          let in_progress := (issues.filter (fun i => inProgressStatuses.contains (pyLower i.statusName))).length
          let to_do : Int := (total : Int) - ((done : Int) + (in_progress : Int))
          "📊 **Health Report for " ++ sprint_name ++ "**\n- Completion: " ++
            fmt1 (pct1Digits done total) ++ "%\n- ✅ Done: " ++ toString done ++
            "\n- 🚧 In Progress: " ++ toString in_progress ++ "\n- 📝 To Do: " ++
            toString to_do ++ "\n- 🚩 Total Issues: " ++ toString total

/-- A Confluence content reference as the listing adapters read it:
`r['content']['id']`/`['title']` or `p['id']`/`p['title']`. -/
structure ContentRef where
  id : String
  title : String
deriving DecidableEq

structure SpaceInfo where
  key : String
  name : String
deriving DecidableEq

/-- A page as `get_page_by_id` returns it: space key, title and
`body.storage.value`. -/
structure CPage where
  spaceKey : String
  title : String
  bodyValue : String
deriving DecidableEq

structure CUser where
  displayName : String
  accountId : String
deriving DecidableEq

/-- The behaviour of the `confluence_conn` client.  The three listing
calls that take a `limit` are modelled through full remote result sets
(`…_store`) of which the client call returns the requested window, the
documented paging contract of the Atlassian API; everything else is a
plain fallible call. -/
structure ConfluenceConn where
  get_page_by_id : String → Except String CPage
  cql_store : String → Except String (List ContentRef)
  create_page : String → String → String → Except String Unit
  create_space : String → String → Except String Unit
  all_spaces_store : Except String (List SpaceInfo)
  set_page_label : String → String → Except String Unit
  get_page_labels : String → Except String (List String)
  attach_content : String → String → Except String Unit
  get_attachments_from_content : String → Except String (List String)
  remove_page : String → Except String Unit
  update_page : String → String → Option String → Option String → Except String Unit
  pages_in_space_store : String → Except String (List ContentRef)
  get_all_pages_by_label : String → Except String (List ContentRef)
  get_user_details : String → Except String CUser

/-- `confluence_conn.cql(cql=…, limit=n)`: at most `n` of the matching
results. -/
def ConfluenceConn.cql (c : ConfluenceConn) (q : String) (limit : Nat) :
    Except String (List ContentRef) :=
  (c.cql_store q).map (fun l => l.take limit)

/-- `confluence_conn.get_all_spaces(start=s, limit=n)`. -/
def ConfluenceConn.get_all_spaces (c : ConfluenceConn) (start limit : Nat) :
    Except String (List SpaceInfo) :=
  c.all_spaces_store.map (fun l => (l.drop start).take limit)

/-- `confluence_conn.get_all_pages_from_space(key, start=s, limit=n)`. -/
def ConfluenceConn.get_all_pages_from_space (c : ConfluenceConn) (space_key : String)
    (start limit : Nat) : Except String (List ContentRef) :=
  (c.pages_in_space_store space_key).map (fun l => (l.drop start).take limit)

/-- `read_confluence_page` (lines 300-306). -/
def read_confluence_page (conn : ConfluenceConn) (page_id : String) : String :=
  match conn.get_page_by_id page_id with
  | .ok page => page.bodyValue
  | .error e => "Error: " ++ e

/-- `search_confluence` (lines 308-319): a CQL siteSearch with `limit=5`. -/
def search_confluence (conn : ConfluenceConn) (query : String) : String :=
  match conn.cql ("siteSearch ~ \"" ++ query ++ "\"") 5 with
  | .error e => "❌ Search error: " ++ e
  | .ok results =>
      if results.isEmpty then "No pages found matching '" ++ query ++ "'."
      else
        String.intercalate "\n" (results.map (fun r => "ID: " ++ r.id ++ " | Title: " ++ r.title))

/-- `create_confluence_page` (lines 321-327). -/
def create_confluence_page (conn : ConfluenceConn) (space title body : String) : String :=
  match conn.create_page space title body with
  | .ok _ => "✅ Page '" ++ title ++ "' created in space " ++ space ++ "."
  | .error e => "Error: " ++ e

/-- `create_confluence_space` (lines 328-339): the key is upper-cased
before the remote call and in the success message. -/
def create_confluence_space (conn : ConfluenceConn) (space_key space_name : String) : String :=
  match conn.create_space (pyUpper space_key) space_name with
  | .ok _ => "✅ Space '" ++ space_name ++ "' (" ++ pyUpper space_key ++ ") created successfully!"
  | .error e => "❌ Error creating space: " ++ e

/-- `list_all_confluence_spaces` (lines 340-353): `start=0, limit=50`. -/
def list_all_confluence_spaces (conn : ConfluenceConn) : String :=
  match conn.get_all_spaces 0 50 with
  | .error e => "❌ Error listing spaces: " ++ e
  | .ok results =>
      if results.isEmpty then "No spaces found or you do not have permission to view them."
      else
        "Available Spaces:\n" ++
          String.intercalate "\n" (results.map (fun s => "Key: " ++ s.key ++ " | Name: " ++ s.name))

/-- `add_label_to_page` (lines 355-361). -/
def add_label_to_page (conn : ConfluenceConn) (page_id label : String) : String :=
  match conn.set_page_label page_id label with
  | .ok _ => "✅ Label '" ++ label ++ "' added to page " ++ page_id ++ "."
  | .error e => "❌ Error adding label: " ++ e

/-- `get_page_labels` (lines 363-370). -/
def get_page_labels (conn : ConfluenceConn) (page_id : String) : String :=
  match conn.get_page_labels page_id with
  | .ok labels =>
      "Labels for " ++ page_id ++ ": " ++
        (if labels.isEmpty then "None" else String.intercalate ", " labels)
  | .error e => "❌ Error getting labels: " ++ e

/-- `add_comment_to_page` (lines 372-378). -/
def add_comment_to_page (conn : ConfluenceConn) (page_id text : String) : String :=
  match conn.attach_content page_id text with
  | .ok _ => "✅ Comment added to page " ++ page_id ++ "."
  | .error e => "❌ Error adding comment: " ++ e

/-- `list_page_attachments` (lines 380-387). -/
def list_page_attachments (conn : ConfluenceConn) (page_id : String) : String :=
  match conn.get_attachments_from_content page_id with
  | .ok files =>
      "Attachments: " ++ (if files.isEmpty then "None" else String.intercalate ", " files)
  | .error e => "❌ Error listing attachments: " ++ e

/-- `delete_confluence_page` (lines 389-395). -/
def delete_confluence_page (conn : ConfluenceConn) (page_id : String) : String :=
  match conn.remove_page page_id with
  | .ok _ => "✅ Page " ++ page_id ++ " moved to trash."
  | .error e => "❌ Error deleting page: " ++ e

/-- `update_page_content` (lines 397-403). -/
def update_page_content (conn : ConfluenceConn) (page_id title body : String) : String :=
  match conn.update_page page_id title (some body) none with
  | .ok _ => "✅ Page " ++ page_id ++ " updated successfully."
  | .error e => "❌ Error updating page: " ++ e

/-- `get_all_pages_in_space` (lines 405-412): `start=0, limit=50`; note
there is no emptiness check before the join. -/
def get_all_pages_in_space (conn : ConfluenceConn) (space_key : String) : String :=
  match conn.get_all_pages_from_space space_key 0 50 with
  | .error e => "❌ Error: " ++ e
  | .ok pages =>
      "Pages in " ++ space_key ++ ":\n" ++
        String.intercalate "\n" (pages.map (fun p => "ID: " ++ p.id ++ " | Title: " ++ p.title))

/-- `move_confluence_page` (lines 414-424): reads the page, then updates it
with `body=None` and the new parent id. -/
def move_confluence_page (conn : ConfluenceConn) (page_id target_parent_id : String) : String :=
  match conn.get_page_by_id page_id with
  | .error e => "❌ Error moving page: " ++ e
  | .ok page_details =>
      match conn.update_page page_id page_details.title none (some target_parent_id) with
      | .ok _ => "✅ Page " ++ page_id ++ " moved under parent " ++ target_parent_id ++ "."
      | .error e => "❌ Error moving page: " ++ e

/-- `search_by_label` (lines 426-433). -/
def search_by_label (conn : ConfluenceConn) (label : String) : String :=
  match conn.get_all_pages_by_label label with
  | .ok results =>
      "Pages with label '" ++ label ++ "':\n" ++
        String.intercalate "\n" (results.map (fun p => "ID: " ++ p.id ++ " | Title: " ++ p.title))
  | .error e => "❌ Error searching label: " ++ e

/-- `get_confluence_user_details` (lines 435-441). -/
def get_confluence_user_details (conn : ConfluenceConn) (username_or_email : String) : String :=
  match conn.get_user_details username_or_email with
  | .ok user => "User: " ++ user.displayName ++ " | AccountID: " ++ user.accountId
  | .error e => "❌ User not found: " ++ e

def failMarked (s : String) : Prop := (∃ r, s = "Error" ++ r) ∨ (∃ r, s = "❌" ++ r)

def errConnJ : JiraConn where
  search_issues := fun _ => .error "boom"
  add_comment := fun _ _ => .error "boom"
  transition_issue := fun _ _ => .error "boom"
  transitions := fun _ => .error "boom"
  create_issue := fun _ _ _ _ => .error "boom"
  issue := fun _ => .error "boom"
  assign_issue := fun _ _ => .error "boom"
  add_attachment := fun _ _ => .error "boom"
  add_worklog := fun _ _ => .error "boom"
  projects := .error "boom"
  create_issue_link := fun _ _ _ => .error "boom"
  create_sprint := fun _ _ _ _ => .error "boom"
  update_priority := fun _ _ => .error "boom"
  update_issuetype := fun _ _ => .error "boom"
  update_sprint_field := fun _ _ => .error "boom"
  sprints := fun _ => .error "boom"
  add_issues_to_sprint := fun _ _ => .error "boom"

def errConnC : ConfluenceConn where
  get_page_by_id := fun _ => .error "boom"
  cql_store := fun _ => .error "boom"
  create_page := fun _ _ _ => .error "boom"
  create_space := fun _ _ => .error "boom"
  all_spaces_store := .error "boom"
  set_page_label := fun _ _ => .error "boom"
  get_page_labels := fun _ => .error "boom"
  attach_content := fun _ _ => .error "boom"
  get_attachments_from_content := fun _ => .error "boom"
  remove_page := fun _ => .error "boom"
  update_page := fun _ _ _ _ => .error "boom"
  pages_in_space_store := fun _ => .error "boom"
  get_all_pages_by_label := fun _ => .error "boom"
  get_user_details := fun _ => .error "boom"

def mkIssue (k su st : String) : Issue := ⟨k, su, st, "", "", []⟩

def jcFoundA : JiraConn :=
  { errConnJ with sprints := fun b => if b = 1 then .ok [⟨7, "Alpha"⟩] else .error "boom" }

def jcFoundB : JiraConn :=
  { errConnJ with sprints := fun b => if b = 2 then .ok [⟨9, "Beta"⟩] else .error "boom" }

def jcZed : JiraConn :=
  { errConnJ with sprints := fun b => if b = 1 then .ok [⟨0, "Zed"⟩] else .error "boom" }

def jcHealth : JiraConn :=
  { errConnJ with
    sprints := fun b => if b = 3 then .ok [⟨5, "Alpha"⟩, ⟨6, "Beta"⟩] else .error "boom"
    search_issues := fun q =>
      if q = "sprint = 5" then .ok []
      else if q = "sprint = 6" then
        .ok [mkIssue "D-1" "setup" "Done", mkIssue "D-2" "api" "In Progress",
          mkIssue "D-3" "ui" "To Do", mkIssue "D-4" "db" "Closed"]
      else .error "boom" }

def jcC4 : JiraConn :=
  { errConnJ with
    sprints := fun b =>
      if b = 4 then .ok [⟨1, "Gamma"⟩, ⟨2, "SPRINT one"⟩, ⟨3, "Sprint One"⟩] else .error "boom"
    add_issues_to_sprint := fun sid ks =>
      if sid = 2 ∧ ks = ["K-1"] then .ok () else .error "boom" }

def jcBacklogEmpty : JiraConn := { errConnJ with search_issues := fun _ => .ok [] }

def jcErrBoth : JiraConn := { errConnJ with search_issues := fun _ => .error "bad jql" }

def ccOk : ConfluenceConn :=
  { errConnC with create_space := fun k _ => if k = "PROJ" then .ok () else .error "dup" }

def ccLists : ConfluenceConn :=
  { errConnC with
    cql_store := fun _ =>
      .ok [⟨"1", "a"⟩, ⟨"2", "b"⟩, ⟨"3", "c"⟩, ⟨"4", "d"⟩, ⟨"5", "e"⟩, ⟨"6", "f"⟩, ⟨"7", "g"⟩]
    all_spaces_store := .ok [⟨"SP", "Space"⟩, ⟨"TM", "Team"⟩]
    pages_in_space_store := fun _ => .ok [⟨"10", "Home"⟩] }

theorem rheDivNat_eq_roundHalfEven (a b : Nat) (hb : 0 < b) :
    (rheDivNat a b : Int) = roundHalfEven ((a : ℚ) / (b : ℚ)) := by
  have hbQ : (0 : ℚ) < (b : ℚ) := by exact_mod_cast hb
  have hbne : (b : ℚ) ≠ 0 := ne_of_gt hbQ
  have hfloor : Int.floor ((a : ℚ) / (b : ℚ)) = ((a / b : Nat) : Int) := by
    rw [Rat.floor_natCast_div_natCast]
    exact_mod_cast rfl
  have habc : (a : ℚ) = (b : ℚ) * ((a / b : Nat) : ℚ) + ((a % b : Nat) : ℚ) := by
    exact_mod_cast (Nat.div_add_mod a b).symm
  have hfrac : (a : ℚ) / (b : ℚ) - ((a / b : Nat) : ℚ) = ((a % b : Nat) : ℚ) / (b : ℚ) := by
    rw [habc]
    field_simp
  have hlt1 : (((a % b : Nat) : ℚ) / (b : ℚ) < 1 / 2) ↔ 2 * (a % b) < b := by
    rw [div_lt_div_iff₀ hbQ (by norm_num : (0 : ℚ) < 2), one_mul]
    constructor
    · intro h
      have : ((a % b : Nat) : ℚ) * 2 < (b : ℚ) := h
      have h2 : ((2 * (a % b) : Nat) : ℚ) < (b : ℚ) := by push_cast; linarith
      exact_mod_cast h2
    · intro h
      have h2 : ((2 * (a % b) : Nat) : ℚ) < (b : ℚ) := by exact_mod_cast h
      push_cast at h2
      linarith
  have hlt2 : (1 / 2 < ((a % b : Nat) : ℚ) / (b : ℚ)) ↔ b < 2 * (a % b) := by
    rw [div_lt_div_iff₀ (by norm_num : (0 : ℚ) < 2) hbQ, one_mul]
    constructor
    · intro h
      have h2 : (b : ℚ) < ((2 * (a % b) : Nat) : ℚ) := by push_cast; linarith
      exact_mod_cast h2
    · intro h
      have h2 : (b : ℚ) < ((2 * (a % b) : Nat) : ℚ) := by exact_mod_cast h
      push_cast at h2
      linarith
  have hpar : (((a / b : Nat) : Int) % 2 = 0) ↔ (a / b) % 2 = 0 := by
    constructor
    · intro h; exact_mod_cast h
    · intro h; exact_mod_cast h
  simp only [rheDivNat, roundHalfEven]
  rw [hfloor, Int.cast_natCast, hfrac]
  simp only [hlt1, hlt2, hpar]
  split_ifs <;> push_cast <;> ring

theorem length_filter_three {α : Type} (p q : α → Bool) (h : ∀ x, p x = true → q x = false)
    (l : List α) :
    (l.filter p).length + (l.filter q).length
        + (l.filter (fun x => !p x && !q x)).length = l.length := by
  induction l with
  | nil => simp
  | cons a t ih =>
    by_cases hp : p a = true
    · have hq := h a hp
      simp [List.filter_cons, hp, hq]
      omega
    · have hp' : p a = false := by simpa using hp
      by_cases hq : q a = true
      · simp [List.filter_cons, hp', hq]
        omega
      · have hq' : q a = false := by simpa using hq
        simp [List.filter_cons, hp', hq']
        omega

theorem done_disjoint_inprogress (s : String) :
    doneStatuses.contains s = true → inProgressStatuses.contains s = false := by
  intro h
  have hs : s = "done" ∨ s = "closed" ∨ s = "resolved" := by
    simpa [doneStatuses] using h
  rcases hs with rfl | rfl | rfl <;> decide

theorem pct1Digits_eq_round1 (d t : Nat) (ht : 0 < t) :
    (pct1Digits d t : ℚ) / 10 = round1 ((d : ℚ) / (t : ℚ) * 100) := by
  have h := rheDivNat_eq_roundHalfEven (1000 * d) t ht
  have harg : ((1000 * d : Nat) : ℚ) / (t : ℚ) = (d : ℚ) / (t : ℚ) * 100 * 10 := by
    push_cast
    ring
  rw [round1, pct1Digits, ← harg, ← h]
  push_cast
  ring

theorem findSprintId_eq_find (ss : List Sprint) (q : String) :
    findSprintId ss q = Option.map Sprint.id (ss.find? (sprintNameMatches q)) := by
  induction ss with
  | nil => rfl
  | cons s rest ih =>
    by_cases h : sprintNameMatches q s = true
    · simp [findSprintId, h, List.find?_cons_of_pos]
    · have h' : sprintNameMatches q s = false := by simpa using h
      simp [findSprintId, h', List.find?_cons_of_neg, ih]

theorem find_first_of_prefix {α : Type} (p : α → Bool) (l1 : List α) (s : α) (l2 : List α)
    (h1 : ∀ t ∈ l1, p t = false) (hs : p s = true) :
    (l1 ++ s :: l2).find? p = some s := by
  induction l1 with
  | nil => simp [List.find?_cons_of_pos, hs]
  | cons a t ih =>
    have ha : p a = false := h1 a (List.mem_cons_self a t)
    rw [List.cons_append, List.find?_cons_of_neg]
    · exact ih (fun x hx => h1 x (List.mem_cons_of_mem a hx))
    · simp [ha]

theorem string_append_ne_empty_left (a b : String) (ha : a ≠ "") : a ++ b ≠ "" := by
  intro h
  apply ha
  have hd : a.data ++ b.data = [] := by
    have h2 := congrArg String.data h
    simpa using h2
  have h3 : a.data = [] := (List.append_eq_nil.mp hd).1
  cases a
  simp_all

theorem isEmpty_false_of_ne (s : String) (hs : s ≠ "") : s.isEmpty = false := by
  rw [Bool.eq_false_iff]
  intro h
  exact hs ((String.isEmpty_iff s).mp h)

theorem failMarked_append (s e : String) (h : failMarked s) : failMarked (s ++ e) := by
  rcases h with ⟨r, rfl⟩ | ⟨r, rfl⟩
  · exact Or.inl ⟨r ++ e, String.append_assoc _ _ _⟩
  · exact Or.inr ⟨r ++ e, String.append_assoc _ _ _⟩

theorem failMarked_error_lit (t : String) : failMarked ("Error" ++ t) := Or.inl ⟨t, rfl⟩

theorem failMarked_cross_lit (t : String) : failMarked ("❌" ++ t) := Or.inr ⟨t, rfl⟩

theorem search_jira_marked (conn : JiraConn) (q e : String)
    (h : conn.search_issues q = .error e) : failMarked (search_jira conn q) := by
  simp only [search_jira, h]
  exact failMarked_append "Error: " e (failMarked_error_lit ": ")

theorem comment_on_ticket_marked (conn : JiraConn) (k c e : String)
    (h : conn.add_comment k c = .error e) : failMarked (comment_on_ticket conn k c) := by
  simp only [comment_on_ticket, h]
  exact failMarked_append "❌ Error: " e (failMarked_cross_lit " Error: ")

theorem update_ticket_status_marked (conn : JiraConn) (k s e : String)
    (h : conn.transition_issue k s = .error e) : failMarked (update_ticket_status conn k s) := by
  simp only [update_ticket_status, h]
  exact failMarked_append "❌ Error: " e (failMarked_cross_lit " Error: ")

theorem get_transitions_marked (conn : JiraConn) (k e : String)
    (h : conn.transitions k = .error e) : failMarked (get_transitions conn k) := by
  simp only [get_transitions, h]
  exact failMarked_append "Error: " e (failMarked_error_lit ": ")

theorem create_issue_marked (conn : JiraConn) (p s d ty e : String)
    (h : conn.create_issue p s d ty = .error e) : failMarked (create_issue conn p s d ty) := by
  simp only [create_issue, h]
  exact failMarked_append "❌ Error: " e (failMarked_cross_lit " Error: ")

theorem get_issue_details_marked (conn : JiraConn) (k e : String)
    (h : conn.issue k = .error e) : failMarked (get_issue_details conn k) := by
  simp only [get_issue_details, h]
  exact failMarked_append "Error: " e (failMarked_error_lit ": ")

theorem assign_issue_marked (conn : JiraConn) (k a e : String)
    (h : conn.assign_issue k a = .error e) : failMarked (assign_issue conn k a) := by
  simp only [assign_issue, h]
  exact failMarked_append "❌ Error: " e (failMarked_cross_lit " Error: ")

theorem add_attachment_marked (conn : JiraConn) (k f e : String)
    (h : conn.add_attachment k f = .error e) : failMarked (add_attachment conn k f) := by
  simp only [add_attachment, h]
  exact failMarked_append "❌ Error: " e (failMarked_cross_lit " Error: ")

theorem get_issue_comments_marked (conn : JiraConn) (k e : String)
    (h : conn.issue k = .error e) : failMarked (get_issue_comments conn k) := by
  simp only [get_issue_comments, h]
  exact failMarked_append "Error: " e (failMarked_error_lit ": ")

theorem log_work_marked (conn : JiraConn) (k t e : String)
    (h : conn.add_worklog k t = .error e) : failMarked (log_work conn k t) := by
  simp only [log_work, h]
  exact failMarked_append "❌ Error: " e (failMarked_cross_lit " Error: ")

theorem list_projects_marked (conn : JiraConn) (e : String)
    (h : conn.projects = .error e) : failMarked (list_projects conn) := by
  simp only [list_projects, h]
  exact failMarked_append "Error: " e (failMarked_error_lit ": ")

theorem get_sprint_issues_marked (conn : JiraConn) (sid : Int) (e : String)
    (h : conn.search_issues ("sprint = " ++ toString sid) = .error e) :
    failMarked (get_sprint_issues conn sid) := by
  simp only [get_sprint_issues, h]
  exact failMarked_append "Error: " e (failMarked_error_lit ": ")

theorem update_issue_priority_marked_fetch (conn : JiraConn) (k p e : String)
    (h : conn.issue k = .error e) : failMarked (update_issue_priority conn k p) := by
  simp only [update_issue_priority, h]
  exact failMarked_append "❌ Error: " e (failMarked_cross_lit " Error: ")

theorem update_issue_priority_marked_update (conn : JiraConn) (k p e : String) (i : Issue)
    (hok : conn.issue k = .ok i) (h : conn.update_priority k p = .error e) :
    failMarked (update_issue_priority conn k p) := by
  simp only [update_issue_priority, hok, h]
  exact failMarked_append "❌ Error: " e (failMarked_cross_lit " Error: ")

theorem link_issues_marked (conn : JiraConn) (a b ty e : String)
    (h : conn.create_issue_link ty a b = .error e) : failMarked (link_issues conn a b ty) := by
  simp only [link_issues, h]
  exact failMarked_append "❌ Error: " e (failMarked_cross_lit " Error: ")

theorem create_sprint_marked (conn : JiraConn) (b : Int) (n : String) (sd ed : Option String)
    (e : String) (h : conn.create_sprint b n sd ed = .error e) :
    failMarked (create_sprint conn b n sd ed) := by
  simp only [create_sprint, h]
  exact failMarked_append "❌ Error creating sprint: " e (failMarked_cross_lit " Error creating sprint: ")

theorem update_issue_type_marked_fetch (conn : JiraConn) (k ty e : String)
    (h : conn.issue k = .error e) : failMarked (update_issue_type conn k ty) := by
  simp only [update_issue_type, h]
  exact failMarked_append _ _ (failMarked_append "❌ Error: " e (failMarked_cross_lit " Error: "))

theorem update_issue_type_marked_update (conn : JiraConn) (k ty e : String) (i : Issue)
    (hok : conn.issue k = .ok i) (h : conn.update_issuetype k ty = .error e) :
    failMarked (update_issue_type conn k ty) := by
  simp only [update_issue_type, hok, h]
  exact failMarked_append _ _ (failMarked_append "❌ Error: " e (failMarked_cross_lit " Error: "))

theorem add_issue_to_sprint_marked_fetch (conn : JiraConn) (k : String) (sid : Int) (e : String)
    (h : conn.issue k = .error e) : failMarked (add_issue_to_sprint conn k sid) := by
  simp only [add_issue_to_sprint, h]
  exact failMarked_append _ _ (failMarked_append "❌ Error: " e (failMarked_cross_lit " Error: "))

theorem add_issue_to_sprint_marked_update (conn : JiraConn) (k : String) (sid : Int) (e : String)
    (i : Issue) (hok : conn.issue k = .ok i) (h : conn.update_sprint_field k sid = .error e) :
    failMarked (add_issue_to_sprint conn k sid) := by
  simp only [add_issue_to_sprint, hok, h]
  exact failMarked_append _ _ (failMarked_append "❌ Error: " e (failMarked_cross_lit " Error: "))

theorem add_issue_to_sprint_by_name_marked_list (conn : JiraConn) (k : String) (b : Int)
    (n e : String) (h : conn.sprints b = .error e) :
    failMarked (add_issue_to_sprint_by_name conn k b n) := by
  simp only [add_issue_to_sprint_by_name, h]
  exact failMarked_append "❌ Error: " e (failMarked_cross_lit " Error: ")

theorem add_issue_to_sprint_by_name_marked_add (conn : JiraConn) (k : String) (b : Int)
    (n e : String) (ss : List Sprint) (s : Sprint) (hok : conn.sprints b = .ok ss)
    (hfind : ss.find? (sprintNameMatches n) = some s)
    (h : conn.add_issues_to_sprint s.id [k] = .error e) :
    failMarked (add_issue_to_sprint_by_name conn k b n) := by
  simp only [add_issue_to_sprint_by_name, hok, hfind, h]
  exact failMarked_append "❌ Error: " e (failMarked_cross_lit " Error: ")

theorem get_backlog_tickets_marked (conn : JiraConn) (p e : String)
    (h : conn.search_issues (backlogJql p) = .error e) :
    failMarked (get_backlog_tickets conn p) := by
  simp only [get_backlog_tickets, h]
  exact failMarked_append "❌ Error retrieving backlog: " e (failMarked_cross_lit " Error retrieving backlog: ")

theorem get_sprint_id_by_name_marked (conn : JiraConn) (b : Int) (n e : String)
    (h : conn.sprints b = .error e) :
    ∃ s, get_sprint_id_by_name conn b n = .errStr s ∧ failMarked s := by
  refine ⟨"Error finding sprint: " ++ e, ?_, ?_⟩
  · simp [get_sprint_id_by_name, h]
  · exact failMarked_append "Error finding sprint: " e (failMarked_error_lit " finding sprint: ")

theorem check_sprint_health_marked (conn : JiraConn) (b sid : Int) (n e : String)
    (hfind : get_sprint_id_by_name conn b n = .intId sid) (hsid : sid ≠ 0)
    (h : conn.search_issues ("sprint = " ++ toString sid) = .error e) :
    failMarked (check_sprint_health conn b n) := by
  have ht : (SprintLookup.intId sid).truthy = true := by
    simp [SprintLookup.truthy, hsid]
  simp only [check_sprint_health, hfind, ht, Bool.not_true, SprintLookup.render, h,
    if_false, Bool.false_eq_true]
  exact failMarked_append "❌ Error calculating health: " e (failMarked_cross_lit " Error calculating health: ")

theorem read_confluence_page_marked (conn : ConfluenceConn) (p e : String)
    (h : conn.get_page_by_id p = .error e) : failMarked (read_confluence_page conn p) := by
  simp only [read_confluence_page, h]
  exact failMarked_append "Error: " e (failMarked_error_lit ": ")

theorem search_confluence_marked (conn : ConfluenceConn) (q e : String)
    (h : conn.cql_store ("siteSearch ~ \"" ++ q ++ "\"") = .error e) :
    failMarked (search_confluence conn q) := by
  simp only [search_confluence, ConfluenceConn.cql, h, Except.map]
  exact failMarked_append "❌ Search error: " e (failMarked_cross_lit " Search error: ")

theorem create_confluence_page_marked (conn : ConfluenceConn) (s t b e : String)
    (h : conn.create_page s t b = .error e) : failMarked (create_confluence_page conn s t b) := by
  simp only [create_confluence_page, h]
  exact failMarked_append "Error: " e (failMarked_error_lit ": ")

theorem create_confluence_space_marked (conn : ConfluenceConn) (k n e : String)
    (h : conn.create_space (pyUpper k) n = .error e) :
    failMarked (create_confluence_space conn k n) := by
  simp only [create_confluence_space, h]
  exact failMarked_append "❌ Error creating space: " e (failMarked_cross_lit " Error creating space: ")

theorem list_all_confluence_spaces_marked (conn : ConfluenceConn) (e : String)
    (h : conn.all_spaces_store = .error e) : failMarked (list_all_confluence_spaces conn) := by
  simp only [list_all_confluence_spaces, ConfluenceConn.get_all_spaces, h, Except.map]
  exact failMarked_append "❌ Error listing spaces: " e (failMarked_cross_lit " Error listing spaces: ")

theorem add_label_to_page_marked (conn : ConfluenceConn) (p l e : String)
    (h : conn.set_page_label p l = .error e) : failMarked (add_label_to_page conn p l) := by
  simp only [add_label_to_page, h]
  exact failMarked_append "❌ Error adding label: " e (failMarked_cross_lit " Error adding label: ")

theorem get_page_labels_marked (conn : ConfluenceConn) (p e : String)
    (h : conn.get_page_labels p = .error e) : failMarked (get_page_labels conn p) := by
  simp only [get_page_labels, h]
  exact failMarked_append "❌ Error getting labels: " e (failMarked_cross_lit " Error getting labels: ")

theorem add_comment_to_page_marked (conn : ConfluenceConn) (p t e : String)
    (h : conn.attach_content p t = .error e) : failMarked (add_comment_to_page conn p t) := by
  simp only [add_comment_to_page, h]
  exact failMarked_append "❌ Error adding comment: " e (failMarked_cross_lit " Error adding comment: ")

theorem list_page_attachments_marked (conn : ConfluenceConn) (p e : String)
    (h : conn.get_attachments_from_content p = .error e) :
    failMarked (list_page_attachments conn p) := by
  simp only [list_page_attachments, h]
  exact failMarked_append "❌ Error listing attachments: " e (failMarked_cross_lit " Error listing attachments: ")

theorem delete_confluence_page_marked (conn : ConfluenceConn) (p e : String)
    (h : conn.remove_page p = .error e) : failMarked (delete_confluence_page conn p) := by
  simp only [delete_confluence_page, h]
  exact failMarked_append "❌ Error deleting page: " e (failMarked_cross_lit " Error deleting page: ")

theorem update_page_content_marked (conn : ConfluenceConn) (p t b e : String)
    (h : conn.update_page p t (some b) none = .error e) :
    failMarked (update_page_content conn p t b) := by
  simp only [update_page_content, h]
  exact failMarked_append "❌ Error updating page: " e (failMarked_cross_lit " Error updating page: ")

theorem get_all_pages_in_space_marked (conn : ConfluenceConn) (k e : String)
    (h : conn.pages_in_space_store k = .error e) :
    failMarked (get_all_pages_in_space conn k) := by
  simp only [get_all_pages_in_space, ConfluenceConn.get_all_pages_from_space, h, Except.map]
  exact failMarked_append "❌ Error: " e (failMarked_cross_lit " Error: ")

theorem move_confluence_page_marked_fetch (conn : ConfluenceConn) (p t e : String)
    (h : conn.get_page_by_id p = .error e) : failMarked (move_confluence_page conn p t) := by
  simp only [move_confluence_page, h]
  exact failMarked_append "❌ Error moving page: " e (failMarked_cross_lit " Error moving page: ")

theorem move_confluence_page_marked_update (conn : ConfluenceConn) (p t e : String) (pd : CPage)
    (hok : conn.get_page_by_id p = .ok pd)
    (h : conn.update_page p pd.title none (some t) = .error e) :
    failMarked (move_confluence_page conn p t) := by
  simp only [move_confluence_page, hok, h]
  exact failMarked_append "❌ Error moving page: " e (failMarked_cross_lit " Error moving page: ")

theorem search_by_label_marked (conn : ConfluenceConn) (l e : String)
    (h : conn.get_all_pages_by_label l = .error e) : failMarked (search_by_label conn l) := by
  simp only [search_by_label, h]
  exact failMarked_append "❌ Error searching label: " e (failMarked_cross_lit " Error searching label: ")

theorem get_confluence_user_details_marked (conn : ConfluenceConn) (u e : String)
    (h : conn.get_user_details u = .error e) :
    failMarked (get_confluence_user_details conn u) := by
  simp only [get_confluence_user_details, h]
  exact failMarked_append "❌ User not found: " e (failMarked_cross_lit " User not found: ")

/-- C1 (amended): for every adapter and every failing remote call, the
caught failure is returned as an error string carrying a failure marker
(a "Error" or "❌" head); no exception crosses the adapter boundary (each
adapter is a total function here).  The amendment: `get_sprint_id_by_name`
returns its marked error string only on a remote failure — on the other
paths it returns an int or None, not a string (see `C1_counterexample`). -/
theorem C1_adapter_failures_marked :
    (∀ (conn : JiraConn) (q e : String), conn.search_issues q = .error e →
        failMarked (search_jira conn q))
    ∧ (∀ (conn : JiraConn) (k c e : String), conn.add_comment k c = .error e →
        failMarked (comment_on_ticket conn k c))
    ∧ (∀ (conn : JiraConn) (k s e : String), conn.transition_issue k s = .error e →
        failMarked (update_ticket_status conn k s))
    ∧ (∀ (conn : JiraConn) (k e : String), conn.transitions k = .error e →
        failMarked (get_transitions conn k))
    ∧ (∀ (conn : JiraConn) (p s d ty e : String), conn.create_issue p s d ty = .error e →
        failMarked (create_issue conn p s d ty))
    ∧ (∀ (conn : JiraConn) (k e : String), conn.issue k = .error e →
        failMarked (get_issue_details conn k))
    ∧ (∀ (conn : JiraConn) (k a e : String), conn.assign_issue k a = .error e →
        failMarked (assign_issue conn k a))
    ∧ (∀ (conn : JiraConn) (k f e : String), conn.add_attachment k f = .error e →
        failMarked (add_attachment conn k f))
    ∧ (∀ (conn : JiraConn) (k e : String), conn.issue k = .error e →
        failMarked (get_issue_comments conn k))
    ∧ (∀ (conn : JiraConn) (k t e : String), conn.add_worklog k t = .error e →
        failMarked (log_work conn k t))
    ∧ (∀ (conn : JiraConn) (e : String), conn.projects = .error e →
        failMarked (list_projects conn))
    ∧ (∀ (conn : JiraConn) (sid : Int) (e : String),
        conn.search_issues ("sprint = " ++ toString sid) = .error e →
        failMarked (get_sprint_issues conn sid))
    ∧ (∀ (conn : JiraConn) (k p e : String), conn.issue k = .error e →
        failMarked (update_issue_priority conn k p))
    ∧ (∀ (conn : JiraConn) (k p e : String) (i : Issue), conn.issue k = .ok i →
        conn.update_priority k p = .error e → failMarked (update_issue_priority conn k p))
    ∧ (∀ (conn : JiraConn) (a b ty e : String), conn.create_issue_link ty a b = .error e →
        failMarked (link_issues conn a b ty))
    ∧ (∀ (conn : JiraConn) (b : Int) (n : String) (sd ed : Option String) (e : String),
        conn.create_sprint b n sd ed = .error e → failMarked (create_sprint conn b n sd ed))
    ∧ (∀ (conn : JiraConn) (k ty e : String), conn.issue k = .error e →
        failMarked (update_issue_type conn k ty))
    ∧ (∀ (conn : JiraConn) (k ty e : String) (i : Issue), conn.issue k = .ok i →
        conn.update_issuetype k ty = .error e → failMarked (update_issue_type conn k ty))
    ∧ (∀ (conn : JiraConn) (k : String) (sid : Int) (e : String), conn.issue k = .error e →
        failMarked (add_issue_to_sprint conn k sid))
    ∧ (∀ (conn : JiraConn) (k : String) (sid : Int) (e : String) (i : Issue),
        conn.issue k = .ok i → conn.update_sprint_field k sid = .error e →
        failMarked (add_issue_to_sprint conn k sid))
    ∧ (∀ (conn : JiraConn) (k : String) (b : Int) (n e : String), conn.sprints b = .error e →
        failMarked (add_issue_to_sprint_by_name conn k b n))
    ∧ (∀ (conn : JiraConn) (k : String) (b : Int) (n e : String) (ss : List Sprint) (s : Sprint),
        conn.sprints b = .ok ss → ss.find? (sprintNameMatches n) = some s →
        conn.add_issues_to_sprint s.id [k] = .error e →
        failMarked (add_issue_to_sprint_by_name conn k b n))
    ∧ (∀ (conn : JiraConn) (p e : String), conn.search_issues (backlogJql p) = .error e →
        failMarked (get_backlog_tickets conn p))
    ∧ (∀ (conn : JiraConn) (b : Int) (n e : String), conn.sprints b = .error e →
        ∃ s, get_sprint_id_by_name conn b n = .errStr s ∧ failMarked s)
    ∧ (∀ (conn : JiraConn) (b sid : Int) (n e : String),
        get_sprint_id_by_name conn b n = .intId sid → sid ≠ 0 →
        conn.search_issues ("sprint = " ++ toString sid) = .error e →
        failMarked (check_sprint_health conn b n))
    ∧ (∀ (conn : ConfluenceConn) (p e : String), conn.get_page_by_id p = .error e →
        failMarked (read_confluence_page conn p))
    ∧ (∀ (conn : ConfluenceConn) (q e : String),
        conn.cql_store ("siteSearch ~ \"" ++ q ++ "\"") = .error e →
        failMarked (search_confluence conn q))
    ∧ (∀ (conn : ConfluenceConn) (s t b e : String), conn.create_page s t b = .error e →
        failMarked (create_confluence_page conn s t b))
    ∧ (∀ (conn : ConfluenceConn) (k n e : String), conn.create_space (pyUpper k) n = .error e →
        failMarked (create_confluence_space conn k n))
    ∧ (∀ (conn : ConfluenceConn) (e : String), conn.all_spaces_store = .error e →
        failMarked (list_all_confluence_spaces conn))
    ∧ (∀ (conn : ConfluenceConn) (p l e : String), conn.set_page_label p l = .error e →
        failMarked (add_label_to_page conn p l))
    ∧ (∀ (conn : ConfluenceConn) (p e : String), conn.get_page_labels p = .error e →
        failMarked (get_page_labels conn p))
    ∧ (∀ (conn : ConfluenceConn) (p t e : String), conn.attach_content p t = .error e →
        failMarked (add_comment_to_page conn p t))
    ∧ (∀ (conn : ConfluenceConn) (p e : String),
        conn.get_attachments_from_content p = .error e →
        failMarked (list_page_attachments conn p))
    ∧ (∀ (conn : ConfluenceConn) (p e : String), conn.remove_page p = .error e →
        failMarked (delete_confluence_page conn p))
    ∧ (∀ (conn : ConfluenceConn) (p t b e : String),
        conn.update_page p t (some b) none = .error e →
        failMarked (update_page_content conn p t b))
    ∧ (∀ (conn : ConfluenceConn) (k e : String), conn.pages_in_space_store k = .error e →
        failMarked (get_all_pages_in_space conn k))
    ∧ (∀ (conn : ConfluenceConn) (p t e : String), conn.get_page_by_id p = .error e →
        failMarked (move_confluence_page conn p t))
    ∧ (∀ (conn : ConfluenceConn) (p t e : String) (pd : CPage), conn.get_page_by_id p = .ok pd →
        conn.update_page p pd.title none (some t) = .error e →
        failMarked (move_confluence_page conn p t))
    ∧ (∀ (conn : ConfluenceConn) (l e : String), conn.get_all_pages_by_label l = .error e →
        failMarked (search_by_label conn l))
    ∧ (∀ (conn : ConfluenceConn) (u e : String), conn.get_user_details u = .error e →
        failMarked (get_confluence_user_details conn u)) :=
  ⟨search_jira_marked, comment_on_ticket_marked, update_ticket_status_marked,
    get_transitions_marked, create_issue_marked, get_issue_details_marked, assign_issue_marked,
    add_attachment_marked, get_issue_comments_marked, log_work_marked, list_projects_marked,
    get_sprint_issues_marked,
    update_issue_priority_marked_fetch,
    fun conn k p e i hok h => update_issue_priority_marked_update conn k p e i hok h,
    link_issues_marked, create_sprint_marked,
    update_issue_type_marked_fetch,
    fun conn k ty e i hok h => update_issue_type_marked_update conn k ty e i hok h,
    add_issue_to_sprint_marked_fetch,
    fun conn k sid e i hok h => add_issue_to_sprint_marked_update conn k sid e i hok h,
    add_issue_to_sprint_by_name_marked_list,
    fun conn k b n e ss s hok hf h =>
      add_issue_to_sprint_by_name_marked_add conn k b n e ss s hok hf h,
    get_backlog_tickets_marked, get_sprint_id_by_name_marked,
    fun conn b sid n e hf hs h => check_sprint_health_marked conn b sid n e hf hs h,
    read_confluence_page_marked, search_confluence_marked, create_confluence_page_marked,
    create_confluence_space_marked, list_all_confluence_spaces_marked, add_label_to_page_marked,
    get_page_labels_marked, add_comment_to_page_marked, list_page_attachments_marked,
    delete_confluence_page_marked, update_page_content_marked, get_all_pages_in_space_marked,
    move_confluence_page_marked_fetch,
    fun conn p t e pd hok h => move_confluence_page_marked_update conn p t e pd hok h,
    search_by_label_marked, get_confluence_user_details_marked⟩

/-- C1 counterexample: the claim says every Tool Adapter returns a string
for every behaviour, but `get_sprint_id_by_name` (a registered tool of the
Jira agent) returns the integer sprint id 7 — not a string — when the
sprint is found. -/
theorem C1_counterexample :
    (get_sprint_id_by_name jcFoundA 1 "alpha").isString = false
    ∧ get_sprint_id_by_name jcFoundA 1 "alpha" = SprintLookup.intId 7 := by
  constructor
  · decide
  · decide

/-- C1 witness: concrete all-failing connections, with each sampled
adapter's output carrying a failure marker. -/
theorem C1_witness :
    failMarked (search_jira errConnJ "assignee = bob") ∧ failMarked (comment_on_ticket errConnJ "K-1" "hi")
    ∧ failMarked (get_backlog_tickets errConnJ "DEMO") ∧ failMarked (read_confluence_page errConnC "77") :=
  ⟨C1_adapter_failures_marked.1 errConnJ "assignee = bob" "boom" rfl,
    C1_adapter_failures_marked.2.1 errConnJ "K-1" "hi" "boom" rfl,
    (C1_adapter_failures_marked.2.2.2.2.2.2.2.2.2.2.2.2.2.2.2.2.2.2.2.2.2.2).1 errConnJ "DEMO" "boom" rfl,
    (C1_adapter_failures_marked.2.2.2.2.2.2.2.2.2.2.2.2.2.2.2.2.2.2.2.2.2.2.2.2.2).1 errConnC "77" "boom" rfl⟩

/-- C2: when the sprint exists on the board (its id found by the lookup,
nonzero as every Jira sprint id is) and the issue search returns the empty
list, `check_sprint_health` answers the empty-sprint message, returned
before the completion-rate division is ever computed. -/
theorem C2_empty_sprint_short_circuit (conn : JiraConn) (board_id sid : Int) (sprint_name : String)
    (hfind : get_sprint_id_by_name conn board_id sprint_name = .intId sid)
    (hsid : sid ≠ 0)
    (hempty : conn.search_issues ("sprint = " ++ toString sid) = .ok []) :
    check_sprint_health conn board_id sprint_name = "Sprint '" ++ sprint_name ++ "' is empty." := by
  have ht : (SprintLookup.intId sid).truthy = true := by
    simp [SprintLookup.truthy, hsid]
  simp [check_sprint_health, hfind, ht, SprintLookup.render, hempty]

/-- C2 witness: a concrete board with sprint ALPHA (id 5) whose issue
search is empty. -/
theorem C2_witness : check_sprint_health jcHealth 3 "ALPHA" = "Sprint 'ALPHA' is empty." :=
  C2_empty_sprint_short_circuit jcHealth 3 5 "ALPHA" (by decide) (by decide) rfl

/-- C3: on a non-empty sprint, done / in-progress / to-do are counted by
case-insensitive membership in the fixed keyword sets, the three buckets
partition the issues (`done + in_progress + to_do = total`, so the To Do
line shows exactly the remaining issues), and the rendered completion
percentage is `round(done / total * 100, 1)` shown with one decimal. -/
theorem C3_sprint_health_buckets (conn : JiraConn) (board_id sid : Int) (sprint_name : String)
    (issues : List Issue)
    (hfind : get_sprint_id_by_name conn board_id sprint_name = .intId sid)
    (hsid : sid ≠ 0)
    (hsearch : conn.search_issues ("sprint = " ++ toString sid) = .ok issues)
    (hne : issues ≠ []) :
    (issues.filter (fun i => doneStatuses.contains (pyLower i.statusName))).length
        + (issues.filter (fun i => inProgressStatuses.contains (pyLower i.statusName))).length
        + (issues.filter (fun i => !doneStatuses.contains (pyLower i.statusName)
              && !inProgressStatuses.contains (pyLower i.statusName))).length
      = issues.length
    ∧ check_sprint_health conn board_id sprint_name =
        "📊 **Health Report for " ++ sprint_name ++ "**\n- Completion: " ++
          fmt1 (pct1Digits (issues.filter (fun i => doneStatuses.contains (pyLower i.statusName))).length issues.length) ++
          "%\n- ✅ Done: " ++ toString (issues.filter (fun i => doneStatuses.contains (pyLower i.statusName))).length ++
          "\n- 🚧 In Progress: " ++ toString (issues.filter (fun i => inProgressStatuses.contains (pyLower i.statusName))).length ++
          "\n- 📝 To Do: " ++ toString (issues.filter (fun i => !doneStatuses.contains (pyLower i.statusName)
              && !inProgressStatuses.contains (pyLower i.statusName))).length ++
          "\n- 🚩 Total Issues: " ++ toString issues.length
    ∧ (pct1Digits (issues.filter (fun i => doneStatuses.contains (pyLower i.statusName))).length issues.length : ℚ) / 10
        = round1 (((issues.filter (fun i => doneStatuses.contains (pyLower i.statusName))).length : ℚ) / (issues.length : ℚ) * 100) := by
  have htot : 0 < issues.length := by
    cases issues with
    | nil => exact absurd rfl hne
    | cons a t => simp
  have hcount := length_filter_three
    (fun i => doneStatuses.contains (pyLower i.statusName))
    (fun i => inProgressStatuses.contains (pyLower i.statusName))
    (fun i h => done_disjoint_inprogress _ h) issues
  refine ⟨hcount, ?_, pct1Digits_eq_round1 _ _ htot⟩
  have ht : (SprintLookup.intId sid).truthy = true := by
    simp [SprintLookup.truthy, hsid]
  have hie : issues.isEmpty = false := by
    cases issues with
    | nil => exact absurd rfl hne
    | cons a t => rfl
  have hint : (issues.length : Int)
      - (((issues.filter (fun i => doneStatuses.contains (pyLower i.statusName))).length : Int)
        + ((issues.filter (fun i => inProgressStatuses.contains (pyLower i.statusName))).length : Int))
      = ((issues.filter (fun i => !doneStatuses.contains (pyLower i.statusName)
              && !inProgressStatuses.contains (pyLower i.statusName))).length : Int) := by
    omega
  simp only [check_sprint_health, hfind, ht, Bool.not_true, SprintLookup.render, hsearch, hie,
    if_false, Bool.false_eq_true]
  rw [hint]
  rfl

/-- C3 witness: four issues with statuses Done, In Progress, To Do and
Closed give 2/1/1 buckets and 50.0% completion. -/
theorem C3_witness :
    check_sprint_health jcHealth 3 "beta" =
      "📊 **Health Report for beta**\n- Completion: 50.0%\n- ✅ Done: 2\n- 🚧 In Progress: 1\n- 📝 To Do: 1\n- 🚩 Total Issues: 4" :=
  ((C3_sprint_health_buckets jcHealth 3 6 "beta"
      [mkIssue "D-1" "setup" "Done", mkIssue "D-2" "api" "In Progress",
        mkIssue "D-3" "ui" "To Do", mkIssue "D-4" "db" "Closed"]
      (by decide) (by decide) rfl (by decide)).2.1).trans (by decide)

/-- C4: both by-name sprint lookups match by `lower()`-equality only — a
name differing only in case matches, anything whose lower-casing differs
(substrings included) does not — the first match in board order is the one
acted upon, and no match yields the not-found result (`None`, resp. the
"❌ Could not find…" message). -/
theorem C4_sprint_name_lookup_exact (conn : JiraConn) (issue_key : String) (board_id : Int) (sprint_name : String)
    (ss : List Sprint)
    (hs : conn.sprints board_id = .ok ss) :
    (∀ s : Sprint, sprintNameMatches sprint_name s = true ↔ pyLower s.name = pyLower sprint_name)
    ∧ (∀ s, ss.find? (sprintNameMatches sprint_name) = some s →
        get_sprint_id_by_name conn board_id sprint_name = .intId s.id)
    ∧ (ss.find? (sprintNameMatches sprint_name) = none →
        get_sprint_id_by_name conn board_id sprint_name = .noneV)
    ∧ (∀ l1 s l2, ss = l1 ++ s :: l2 → (∀ t ∈ l1, sprintNameMatches sprint_name t = false) →
        sprintNameMatches sprint_name s = true →
        ss.find? (sprintNameMatches sprint_name) = some s)
    ∧ (∀ s, ss.find? (sprintNameMatches sprint_name) = some s →
        conn.add_issues_to_sprint s.id [issue_key] = .ok () →
        add_issue_to_sprint_by_name conn issue_key board_id sprint_name =
          "✅ " ++ issue_key ++ " successfully added to '" ++ sprint_name ++ "' (ID: " ++ toString s.id ++ ").")
    ∧ (ss.find? (sprintNameMatches sprint_name) = none →
        add_issue_to_sprint_by_name conn issue_key board_id sprint_name =
          "❌ Could not find a sprint named '" ++ sprint_name ++ "' on board " ++ toString board_id ++ ".") := by
  refine ⟨?_, ?_, ?_, ?_, ?_, ?_⟩
  · intro s
    simp [sprintNameMatches]
  · intro s hfind
    simp [get_sprint_id_by_name, hs, findSprintId_eq_find, hfind]
  · intro hnone
    simp [get_sprint_id_by_name, hs, findSprintId_eq_find, hnone]
  · intro l1 s l2 hsplit h1 hps
    rw [hsplit]
    exact find_first_of_prefix _ l1 s l2 h1 hps
  · intro s hfind hadd
    simp [add_issue_to_sprint_by_name, hs, hfind, hadd]
  · intro hnone
    simp [add_issue_to_sprint_by_name, hs, hnone]

/-- C4 witness: query "sprint ONE" skips "Gamma", selects the first
case-insensitive match "SPRINT one" (id 2, not the later "Sprint One"),
and the add adapter acts on it. -/
theorem C4_witness :
    get_sprint_id_by_name jcC4 4 "sprint ONE" = SprintLookup.intId 2
    ∧ add_issue_to_sprint_by_name jcC4 "K-1" 4 "sprint ONE" =
        "✅ K-1 successfully added to 'sprint ONE' (ID: 2)." := by
  have h := C4_sprint_name_lookup_exact jcC4 "K-1" 4 "sprint ONE" [⟨1, "Gamma"⟩, ⟨2, "SPRINT one"⟩, ⟨3, "Sprint One"⟩]
    rfl
  exact ⟨h.2.1 ⟨2, "SPRINT one"⟩ (by decide),
    (h.2.2.2.2.1 ⟨2, "SPRINT one"⟩ (by decide) rfl).trans (by decide)⟩

/-- C5 (amended): `get_sprint_id_by_name` returns a string only when the
remote call fails; a found sprint yields its integer id and no match
yields Python None, so its callers do need non-string cases (every other
adapter returns a string by construction). -/
theorem C5_get_sprint_id_return_kinds (conn : JiraConn) (board_id : Int) (sprint_name : String) :
    (∀ e, conn.sprints board_id = .error e →
        get_sprint_id_by_name conn board_id sprint_name = .errStr ("Error finding sprint: " ++ e)
        ∧ (get_sprint_id_by_name conn board_id sprint_name).isString = true)
    ∧ (∀ ss, conn.sprints board_id = .ok ss →
        ss.find? (sprintNameMatches sprint_name) = none →
        get_sprint_id_by_name conn board_id sprint_name = .noneV
        ∧ (get_sprint_id_by_name conn board_id sprint_name).isString = false)
    ∧ (∀ ss s, conn.sprints board_id = .ok ss →
        ss.find? (sprintNameMatches sprint_name) = some s →
        get_sprint_id_by_name conn board_id sprint_name = .intId s.id
        ∧ (get_sprint_id_by_name conn board_id sprint_name).isString = false) := by
  refine ⟨?_, ?_, ?_⟩
  · intro e he
    simp [get_sprint_id_by_name, he, SprintLookup.isString]
  · intro ss hok hnone
    simp [get_sprint_id_by_name, hok, findSprintId_eq_find, hnone, SprintLookup.isString]
  · intro ss s hok hfind
    simp [get_sprint_id_by_name, hok, findSprintId_eq_find, hfind, SprintLookup.isString]

/-- C5 counterexample: the claim says `get_sprint_id_by_name` returns a
string whether the sprint is found or absent; it returns the int 9 for the
found sprint Beta and None for an absent name. -/
theorem C5_counterexample :
    get_sprint_id_by_name jcFoundB 2 "Beta" = SprintLookup.intId 9
    ∧ (get_sprint_id_by_name jcFoundB 2 "Beta").isString = false
    ∧ get_sprint_id_by_name jcFoundB 2 "Missing" = SprintLookup.noneV
    ∧ (get_sprint_id_by_name jcFoundB 2 "Missing").isString = false := by
  refine ⟨by decide, by decide, by decide, by decide⟩

/-- C5 witness: on a failing connection the lookup does return a string. -/
theorem C5_witness :
    get_sprint_id_by_name errConnJ 1 "Sprint 9" = SprintLookup.errStr "Error finding sprint: boom"
    ∧ (get_sprint_id_by_name errConnJ 1 "Sprint 9").isString = true :=
  (C5_get_sprint_id_return_kinds errConnJ 1 "Sprint 9").1 "boom" rfl

/-- C6: `get_backlog_tickets` queries exactly the project's issues that
are in no sprint and unresolved (the fixed JQL), returning the itemized
"Backlog for <key>:" list when issues match and exactly
"No backlog tickets found for project <key>." when none do. -/
theorem C6_backlog_query_and_messages (conn : JiraConn) (project_key : String) :
    backlogJql project_key =
      "project = '" ++ project_key ++ "' AND sprint is EMPTY AND resolution is EMPTY"
    ∧ (conn.search_issues (backlogJql project_key) = .ok [] →
        get_backlog_tickets conn project_key =
          "No backlog tickets found for project " ++ project_key ++ ".")
    ∧ (∀ issues, conn.search_issues (backlogJql project_key) = .ok issues → issues ≠ [] →
        get_backlog_tickets conn project_key =
          "Backlog for " ++ project_key ++ ":\n" ++
            String.intercalate "\n"
              (issues.map (fun i => i.key ++ ": " ++ i.summary ++ " [" ++ i.statusName ++ "]")))
    ∧ (∀ e, conn.search_issues (backlogJql project_key) = .error e →
        get_backlog_tickets conn project_key = "❌ Error retrieving backlog: " ++ e) := by
  refine ⟨rfl, ?_, ?_, ?_⟩
  · intro hok
    simp [get_backlog_tickets, hok]
  · intro issues hok hne
    have hie : (issues.map (fun i => i.key ++ ": " ++ i.summary ++ " [" ++ i.statusName ++ "]")).isEmpty = false := by
      cases issues with
      | nil => exact absurd rfl hne
      | cons a t => rfl
    simp [get_backlog_tickets, hok, hie]
  · intro e he
    simp [get_backlog_tickets, he]

/-- C6 witness: project DEMO with an empty backlog search gives the exact
empty-result message. -/
theorem C6_witness :
    get_backlog_tickets jcBacklogEmpty "DEMO" = "No backlog tickets found for project DEMO." :=
  (C6_backlog_query_and_messages jcBacklogEmpty "DEMO").2.1 rfl

/-- C8 (amended): a failing sprint-list call makes `get_sprint_id_by_name`
return the non-empty (hence truthy) string "Error finding sprint: …", so
`check_sprint_health` does not take its not-found branch and interpolates
the error string into the follow-up JQL query; the not-found message is
triggered exactly by a falsy lookup result — Python None or a sprint id
equal to 0 (`C8_counterexample`), not only None as claimed. -/
theorem C8_error_string_truthy_lookup (conn : JiraConn) (board_id : Int) (sprint_name : String) :
    (∀ e, conn.sprints board_id = .error e →
        get_sprint_id_by_name conn board_id sprint_name = .errStr ("Error finding sprint: " ++ e))
    ∧ (∀ s : String, s ≠ "" → (SprintLookup.errStr s).truthy = true)
    ∧ (∀ e, conn.sprints board_id = .error e → ∀ e2,
        conn.search_issues ("sprint = " ++ ("Error finding sprint: " ++ e)) = .error e2 →
        check_sprint_health conn board_id sprint_name = "❌ Error calculating health: " ++ e2)
    ∧ ((get_sprint_id_by_name conn board_id sprint_name).truthy = false →
        check_sprint_health conn board_id sprint_name =
          "❌ Sprint '" ++ sprint_name ++ "' not found on board " ++ toString board_id ++ ".")
    ∧ SprintLookup.noneV.truthy = false
    ∧ (∀ i : Int, (SprintLookup.intId i).truthy = false ↔ i = 0) := by
  refine ⟨?_, ?_, ?_, ?_, rfl, ?_⟩
  · intro e he
    simp [get_sprint_id_by_name, he]
  · intro s hs
    simp [SprintLookup.truthy, isEmpty_false_of_ne s hs]
  · intro e he e2 hsearch
    have hlook : get_sprint_id_by_name conn board_id sprint_name
        = .errStr ("Error finding sprint: " ++ e) := by
      simp [get_sprint_id_by_name, he]
    have hne : ("Error finding sprint: " ++ e).isEmpty = false :=
      isEmpty_false_of_ne _ (string_append_ne_empty_left _ _ (by decide))
    simp [check_sprint_health, hlook, SprintLookup.truthy, SprintLookup.render, hne, hsearch]
  · intro hfalse
    simp [check_sprint_health, hfalse]
  · intro i
    simp [SprintLookup.truthy]

/-- C8 counterexample: a sprint whose id is 0 is found by the lookup (the
result is `intId 0`, not None), yet `if not sprint_id` is true for the int
0, so the not-found message is triggered by a non-None lookup result. -/
theorem C8_counterexample :
    get_sprint_id_by_name jcZed 1 "Zed" = SprintLookup.intId 0
    ∧ SprintLookup.intId 0 ≠ SprintLookup.noneV
    ∧ check_sprint_health jcZed 1 "Zed" = "❌ Sprint 'Zed' not found on board 1." := by
  refine ⟨by decide, by decide, by decide⟩

/-- C8 witness: sprint list fails with "boom"; the health check then runs
a search with the interpolated error string and reports its failure. -/
theorem C8_witness :
    check_sprint_health jcErrBoth 1 "S" = "❌ Error calculating health: bad jql" :=
  (C8_error_string_truthy_lookup jcErrBoth 1 "S").2.2.1 "boom" rfl "bad jql" rfl

/-- C9: `create_confluence_space` upper-cases the key before the remote
call and in the success message, so keys differing only in case behave
identically and target the same space key. -/
theorem C9_space_key_uppercased (conn : ConfluenceConn) (k1 k2 space_name : String) :
    (pyUpper k1 = pyUpper k2 →
      create_confluence_space conn k1 space_name = create_confluence_space conn k2 space_name)
    ∧ (conn.create_space (pyUpper k1) space_name = .ok () →
        create_confluence_space conn k1 space_name =
          "✅ Space '" ++ space_name ++ "' (" ++ pyUpper k1 ++ ") created successfully!")
    ∧ (∀ e, conn.create_space (pyUpper k1) space_name = .error e →
        create_confluence_space conn k1 space_name = "❌ Error creating space: " ++ e) := by
  refine ⟨?_, ?_, ?_⟩
  · intro hup
    simp [create_confluence_space, hup]
  · intro hok
    simp [create_confluence_space, hok]
  · intro e he
    simp [create_confluence_space, he]

/-- C9 witness: key "proj" creates space PROJ, and "PrOj" is
indistinguishable from it. -/
theorem C9_witness :
    create_confluence_space ccOk "proj" "Project Forge" =
      "✅ Space 'Project Forge' (PROJ) created successfully!"
    ∧ create_confluence_space ccOk "proj" "Project Forge" =
        create_confluence_space ccOk "PrOj" "Project Forge" :=
  ⟨(C9_space_key_uppercased ccOk "proj" "PrOj" "Project Forge").2.1 rfl,
    (C9_space_key_uppercased ccOk "proj" "PrOj" "Project Forge").1 (by decide)⟩

/-- C10: `search_confluence` asks the remote query for at most 5 results
and the space/page listings for at most 50 (`start=0`), so the rendered
text enumerates at most that many entries however many exist remotely. -/
theorem C10_listing_limits (conn : ConfluenceConn) (query space_key : String) :
    (∀ l, conn.cql_store ("siteSearch ~ \"" ++ query ++ "\"") = .ok l → l.take 5 ≠ [] →
        search_confluence conn query =
          String.intercalate "\n" ((l.take 5).map (fun r => "ID: " ++ r.id ++ " | Title: " ++ r.title))
        ∧ ((l.take 5).map (fun r => "ID: " ++ r.id ++ " | Title: " ++ r.title)).length ≤ 5)
    ∧ (∀ l, conn.all_spaces_store = .ok l → l.take 50 ≠ [] →
        list_all_confluence_spaces conn =
          "Available Spaces:\n" ++
            String.intercalate "\n"
              ((l.take 50).map (fun s => "Key: " ++ s.key ++ " | Name: " ++ s.name))
        ∧ ((l.take 50).map (fun s => "Key: " ++ s.key ++ " | Name: " ++ s.name)).length ≤ 50)
    ∧ (∀ l, conn.pages_in_space_store space_key = .ok l →
        get_all_pages_in_space conn space_key =
          "Pages in " ++ space_key ++ ":\n" ++
            String.intercalate "\n"
              ((l.take 50).map (fun p => "ID: " ++ p.id ++ " | Title: " ++ p.title))
        ∧ ((l.take 50).map (fun p => "ID: " ++ p.id ++ " | Title: " ++ p.title)).length ≤ 50) := by
  refine ⟨?_, ?_, ?_⟩
  · intro l hok hne
    have hie : ((l.take 5).map (fun r => "ID: " ++ r.id ++ " | Title: " ++ r.title)).isEmpty = false := by
      cases h5 : l.take 5 with
      | nil => exact absurd h5 hne
      | cons a t => rfl
    constructor
    · simp [search_confluence, ConfluenceConn.cql, Except.map, hok, hie]
      intro h0
      exact absurd (by simp [h0]) hne
    · calc ((l.take 5).map _).length = (l.take 5).length := List.length_map _ _
        _ ≤ 5 := List.length_take_le 5 l
  · intro l hok hne
    have hie : ((l.take 50).map (fun s => "Key: " ++ s.key ++ " | Name: " ++ s.name)).isEmpty = false := by
      cases h5 : l.take 50 with
      | nil => exact absurd h5 hne
      | cons a t => rfl
    constructor
    · simp [list_all_confluence_spaces, ConfluenceConn.get_all_spaces, Except.map, hok, hie]
      intro h0
      exact absurd (by simp [h0]) hne
    · calc ((l.take 50).map _).length = (l.take 50).length := List.length_map _ _
        _ ≤ 50 := List.length_take_le 50 _
  · intro l hok
    constructor
    · simp [get_all_pages_in_space, ConfluenceConn.get_all_pages_from_space, Except.map, hok]
    · calc ((l.take 50).map _).length = (l.take 50).length := List.length_map _ _
        _ ≤ 50 := List.length_take_le 50 _

/-- C10 witness: seven remote matches render as exactly five lines. -/
theorem C10_witness :
    search_confluence ccLists "kw" =
      "ID: 1 | Title: a\nID: 2 | Title: b\nID: 3 | Title: c\nID: 4 | Title: d\nID: 5 | Title: e"
    ∧ get_all_pages_in_space ccLists "SP" = "Pages in SP:\nID: 10 | Title: Home" :=
  ⟨(((C10_listing_limits ccLists "kw" "SP").1
      [⟨"1", "a"⟩, ⟨"2", "b"⟩, ⟨"3", "c"⟩, ⟨"4", "d"⟩, ⟨"5", "e"⟩, ⟨"6", "f"⟩, ⟨"7", "g"⟩]
      rfl (by decide)).1).trans (by decide),
    (((C10_listing_limits ccLists "kw" "SP").2.2 [⟨"10", "Home"⟩] rfl).1).trans (by decide)⟩
